import Mathlib

/-!
Verification of the drive-scoring pipeline of the `nfl` repository.

The pandas tables of `score_teams.py` are embedded as Lean lists of records;
`NaN` (missing) entries are embedded as `Option.none`, and every pandas
aggregation that skips `NaN` is embedded through `optMean`/`optSub`/`optAdd`,
which propagate `none` exactly where pandas propagates `NaN`.  Raw play
descriptions are embedded as `List Char`, and the regular-expression masks of
the source (`'TOUCHDOWN.*REVERSED'` and similar) as explicit substring /
ordered-occurrence searches.
-/

set_option maxRecDepth 4000

/-! ### Character-list string utilities -/

/-- Substring test: does `s` contain `p` as a contiguous substring?
Embeds `pandas.Series.str.contains` with a pattern free of regex operators. -/
def containsSub (p : List Char) : List Char → Bool
  | [] => p.isPrefixOf ([] : List Char)
  | c :: rest => p.isPrefixOf (c :: rest) || containsSub p rest

/-- Ordered-occurrence test: does `s` contain `p1 ++ w ++ p2` for some `w`?
Embeds `pandas.Series.str.contains` with a regex of the form `A.*B`. -/
def containsSeq (p1 p2 : List Char) : List Char → Bool
  | [] => p1.isPrefixOf ([] : List Char) && containsSub p2 []
  | c :: rest =>
      (p1.isPrefixOf (c :: rest) && containsSub p2 ((c :: rest).drop p1.length))
        || containsSeq p1 p2 rest

/-- Python `str.split(sep)` for a one-character separator. -/
def splitOnChar (sep : Char) : List Char → List (List Char)
  | [] => [[]]
  | c :: rest =>
      match splitOnChar sep rest with
      | [] => [[]]
      | w :: ws => if c = sep then [] :: w :: ws else (c :: w) :: ws

/-- Decimal-digit parser, accumulator form (embeds Python `int(...)` on a
well-formed digit string). -/
def parseNatAcc : List Char → Nat → Option Nat
  | [], acc => some acc
  | c :: cs, acc =>
      if c.isDigit then parseNatAcc cs (acc * 10 + (c.toNat - 48)) else none

/-- Decimal parser: `none` on the empty string or any non-digit character. -/
def parseNat : List Char → Option Nat
  | [] => none
  | s => parseNatAcc s 0

/-! ### NaN-skipping arithmetic (pandas semantics) -/

/-- Mean of the present (`some`) values of a list, `none` when no value is
present.  Embeds a pandas `mean` with its default `skipna=True`: an empty
group or an all-`NaN` group yields `NaN`. -/
def optMean (xs : List (Option ℚ)) : Option ℚ :=
  let vs := xs.filterMap id
  if vs.length = 0 then none else some (vs.sum / (vs.length : ℚ))

/-- `NaN`-propagating subtraction. -/
def optSub : Option ℚ → Option ℚ → Option ℚ
  | some a, some b => some (a - b)
  | _, _ => none

/-- `NaN`-propagating addition. -/
def optAdd : Option ℚ → Option ℚ → Option ℚ
  | some a, some b => some (a + b)
  | _, _ => none

/-! ### Yard-line binning (`bin_yard_lines`, `score_teams.py` lines 171-181)

`lower = np.arange(0, 100, 10)`, `upper = np.arange(10, 110, 10)`,
`bins = pd.IntervalIndex.from_tuples(list(zip(lower, upper)))` builds the ten
intervals `(0,10], (10,20], ..., (90,100]` — `from_tuples` defaults to
`closed='right'` — and `pd.cut` places a value in the unique interval
containing it (`NaN` when no interval contains it). -/

/-- The ten `(10*i, 10*i+10)` interval endpoints, in index order. -/
def pdCutBins : List (Nat × Nat) := (List.range 10).map fun i => (10 * i, 10 * i + 10)

/-- `pd.cut` against `pdCutBins`: the first (hence unique) right-closed
interval `(l, u]` containing `x`, as its endpoint pair. -/
def pdCut (x : ℚ) : Option (Nat × Nat) :=
  pdCutBins.find? fun b => decide ((b.1 : ℚ) < x) && decide (x ≤ (b.2 : ℚ))

/-- The `'%s-%s' % (x.left, x.right)` interval label of the source. -/
def binLabel (b : Nat × Nat) : String := toString b.1 ++ "-" ++ toString b.2

/-- `bin_yard_lines` on one cell: bin the value, then render the label;
`NaN` stays `NaN`. -/
def bin_yard_line_value (v : Option ℚ) : Option String :=
  (v.bind pdCut).map binLabel

/-! ### Yard-line formatting (`format_yardline`, `drives.py` lines 146-158 and
`parse_games.py` lines 98-110; both copies are identical) -/

/-- Handler for the `"<SIDE> <N>"` branch of `format_yardline`: the Python
`side_of_field, yard_line_str = yard_line_str.split(' ')` unpacking followed by
`int(...)`.  A token count other than two, or a non-numeric `<N>`, raises in
Python; both are embedded as `none`. -/
def yardline_from_token : List (List Char) → List Char → Option ℤ
  | [side_of_field, n_str], team =>
      match parseNat n_str with
      | some n => if side_of_field = team then some (n : ℤ) else some (100 - (n : ℤ))
      | none => none
  | _, _ => none

/-- `format_yardline`: raw value `"50"` gives 50, a non-empty value is split
into `"<SIDE> <N>"` (yielding `N` for the offense's own side and `100 - N`
otherwise), and the empty value gives the `np.nan` sentinel (`none`). -/
def format_yardline (yrdln team : List Char) : Option ℤ :=
  if yrdln = "50".toList then some 50
  else if yrdln ≠ [] then yardline_from_token (splitOnChar ' ' yrdln) team
  else none

/-! ### Score differential (`format_score_differential`, `drives.py` lines
161-170 and `parse_games.py` lines 113-122) -/

/-- Per-quarter scores of a game's JSON record: `game['home']['score'][str(q)]`
and `game['away']['score'][str(q)]`. -/
structure GameScoreTable where
  home_score : Nat → ℤ
  away_score : Nat → ℤ

/-- `format_score_differential`: the Python function returns the `int` 0 when
the drive starts in quarter 1 and otherwise `str(np.sum(home) - np.sum(away))`
over `range(1, start_quarter)`; the `int`/`str` dynamic result type is embedded
as a sum type. -/
def format_score_differential (game : GameScoreTable) (start_quarter : Nat) : ℤ ⊕ String :=
  if start_quarter = 1 then Sum.inl 0
  else
    Sum.inr (toString
      (((List.range' 1 (start_quarter - 1)).map game.home_score).sum
        - ((List.range' 1 (start_quarter - 1)).map game.away_score).sum))

/-! ### Next-drive linkage (`get_next_opponent_drive`, `score_teams.py` lines
155-168) -/

/-- A drive row as seen by `get_next_opponent_drive`: identities plus the two
yard-line columns that get shifted. -/
structure RawDrive where
  game_id : String
  offensive_team : String
  home_team : String
  away_team : String
  start_yard_line : Option ℚ
  end_yard_line : Option ℚ
deriving DecidableEq

/-- A drive row after `get_next_opponent_drive` added the `next_*` columns. -/
structure LinkedDrive where
  row : RawDrive
  next_start_yard_line : Option ℚ
  next_end_yard_line : Option ℚ
  next_offensive_team : Option String
deriving DecidableEq

/-- One row of `get_next_opponent_drive`: the `shift(-1)` columns come from the
following row (`none` for the final row, where every pandas comparison with the
shifted `NaN` makes `new_game_mask` true);  `next_start_yard_line` and
`next_end_yard_line` are blanked when `same_team_mask | new_game_mask` holds,
while `next_offensive_team` is blanked only under `new_game_mask`
(`score_teams.py` line 166). -/
def mkLinked : RawDrive → Option RawDrive → LinkedDrive
  | r, none => ⟨r, none, none, none⟩
  | r, some r2 =>
      ⟨r,
        if r.offensive_team = r2.offensive_team ∨
            (r.home_team ≠ r2.home_team ∨ r.away_team ≠ r2.away_team) then none
        else r2.start_yard_line,
        if r.offensive_team = r2.offensive_team ∨
            (r.home_team ≠ r2.home_team ∨ r.away_team ≠ r2.away_team) then none
        else r2.end_yard_line,
        if r.home_team ≠ r2.home_team ∨ r.away_team ≠ r2.away_team then none
        else some r2.offensive_team⟩

/-- `get_next_opponent_drive` over the whole table, in table order. -/
def get_next_opponent_drive : List RawDrive → List LinkedDrive
  | [] => []
  | r :: rest => mkLinked r rest.head? :: get_next_opponent_drive rest

/-! ### Playoff marking (`mark_playoffs`, `score_teams.py` lines 132-142) -/

/-- A drive row as seen by `mark_playoffs`: the sort keys and the season. -/
structure SeasonDrive where
  season : ℤ
  game_id : String
  start_quarter : Nat
  start_time : String
deriving DecidableEq

/-- Lexicographic strict order on character lists (by code point). -/
def charListLT : List Char → List Char → Bool
  | [], [] => false
  | [], _ :: _ => true
  | _ :: _, [] => false
  | a :: as, b :: bs => if a = b then charListLT as bs else decide (a.toNat < b.toNat)

/-- Strict string order used by the embedded `sort_values`. -/
def strLT (a b : String) : Bool := charListLT a.toList b.toList

/-- Non-strict string order used by the embedded `sort_values`. -/
def strLE (a b : String) : Bool := strLT a b || a == b

/-- The composite `sort_values(['game_id', 'start_quarter', 'start_time'],
ascending=[True, True, False])` key order. -/
def driveLE (a b : SeasonDrive) : Bool :=
  if a.game_id ≠ b.game_id then strLT a.game_id b.game_id
  else if a.start_quarter ≠ b.start_quarter then decide (a.start_quarter < b.start_quarter)
  else strLE b.start_time a.start_time

/-- Insert into a sorted list (helper of the embedded sort). -/
def insertSorted {α : Type} (le : α → α → Bool) (x : α) : List α → List α
  | [] => [x]
  | y :: ys => if le x y then x :: y :: ys else y :: insertSorted le x ys

/-- Insertion sort by a Boolean order; embeds `DataFrame.sort_values` (which
leaves the relative order of tied keys unspecified). -/
def sortByKey {α : Type} (le : α → α → Bool) : List α → List α
  | [] => []
  | x :: xs => insertSorted le x (sortByKey le xs)

/-- A drive row after `mark_playoffs` added its columns. -/
structure MarkedDrive where
  row : SeasonDrive
  game_in_season : Nat
  is_playoffs : Nat
deriving DecidableEq

/-- `unique_game_flag`: 1 exactly on rows with `start_quarter == 1` and
`start_time == '15:00'` (the game-start marker). -/
def unique_game_flag (r : SeasonDrive) : Nat :=
  if r.start_quarter = 1 ∧ r.start_time = "15:00" then 1 else 0

/-- The per-season running count of game-start markers at position `i` of the
sorted table `s` (the `groupby('season') ... cumsum()` cell of the row at `i`,
which has season `r.season`). -/
def game_in_season_at (s : List SeasonDrive) (i : Nat) (r : SeasonDrive) : Nat :=
  (((s.take (i + 1)).filter fun x => decide (x.season = r.season)).map unique_game_flag).sum

/-- `mark_playoffs`: sort by `(game_id asc, start_quarter asc, start_time
desc)`, flag the game-start rows, cumulatively count them per season, and set
`is_playoffs = 1` exactly where the running count exceeds 256. -/
def mark_playoffs (df : List SeasonDrive) : List MarkedDrive :=
  let s := sortByKey driveLE df
  s.mapIdx fun i r =>
    ⟨r, game_in_season_at s i r, if 256 < game_in_season_at s i r then 1 else 0⟩

/-! ### The scoring table and expected-points estimator (`score_teams.py`
lines 184-233 and 308-350) -/

/-- A drive row as seen by the scoring pipeline: the raw fields the pipeline
reads plus all columns it writes. -/
structure ScoredDrive where
  result : String
  last_play_desc : List Char
  start_yard_line_bin : Option String
  end_yard_line_bin : Option String
  next_start_yard_line : Option ℚ
  expected_points : Option ℚ
  offensive_points : ℤ
  dst_points : ℤ
  is_touchdown : Nat
  is_field_goal : Nat
  is_score : Nat
  is_interception : Nat
  is_fumble : Nat
  field_position_points : Option ℚ
  drive_score : Option ℚ
deriving DecidableEq

/-- The literal `'TOUCHDOWN'` of the `mark_dst_scores` masks. -/
def touchdownPat : List Char := "TOUCHDOWN".toList

/-- The literal `'REVERSED'` of the negation masks. -/
def reversedPat : List Char := "REVERSED".toList

/-- The literal `'NULLIFIED'` of the negation masks. -/
def nullifiedPat : List Char := "NULLIFIED".toList

/-- The literal `'extra point is GOOD'` of `mark_offensive_scores`. -/
def extraPointPat : List Char := "extra point is GOOD".toList

/-- The literal `'TWO-POINT CONV'` prefix of the two-point regex. -/
def twoPointPat : List Char := "TWO-POINT CONV".toList

/-- The literal `'SUCCEEDS'` of the two-point regex. -/
def succeedsPat : List Char := "SUCCEEDS".toList

/-- The closing play text signals a touchdown that is not textually negated:
it contains `TOUCHDOWN`, matches neither `TOUCHDOWN.*REVERSED` nor
`TOUCHDOWN.*NULLIFIED`. -/
def td_text_signal (desc : List Char) : Prop :=
  containsSub touchdownPat desc = true
  ∧ containsSeq touchdownPat reversedPat desc = false
  ∧ containsSeq touchdownPat nullifiedPat desc = false

/-- `mark_offensive_scores` on one row (every mask of the source is row-local,
so the table-wide masked assignments are a per-row map). -/
def mark_offensive_row (r : ScoredDrive) : ScoredDrive :=
  let td_mask : Bool := r.result == "Touchdown"
  let field_goal_mask : Bool := r.result == "Field Goal"
  let extra_point_mask : Bool := containsSub extraPointPat r.last_play_desc
  let two_point_mask : Bool := containsSeq twoPointPat succeedsPat r.last_play_desc
      && !containsSeq succeedsPat reversedPat r.last_play_desc
      && !containsSeq succeedsPat nullifiedPat r.last_play_desc
  { r with
    expected_points := some (if td_mask then 7 else 0),
    offensive_points := (if td_mask then 6 else 0) + (if field_goal_mask then 3 else 0)
      + (if extra_point_mask then 1 else 0) + (if two_point_mask then 2 else 0),
    is_touchdown := if td_mask then 1 else 0,
    is_field_goal := if field_goal_mask then 1 else 0,
    is_score := if td_mask || field_goal_mask then 1 else 0 }

/-- `mark_dst_scores` on one row: the amendment of `result` and the
`expected_points` overwrite happen only for the `Interception` / `Fumble`
masks, the safety mask sets −2, and `dst_points` assumes the extra point. -/
def mark_dst_row (r : ScoredDrive) : ScoredDrive :=
  let int_mask : Bool := r.result == "Interception"
  let fumble_mask : Bool := r.result == "Fumble"
  let td_mask : Bool := !(r.result == "Touchdown")
      && containsSub touchdownPat r.last_play_desc
      && !containsSeq touchdownPat reversedPat r.last_play_desc
      && !containsSeq touchdownPat nullifiedPat r.last_play_desc
  let safety_mask : Bool := r.result == "Safety" || r.result == "Fumble, Safety"
  { r with
    is_interception := if int_mask then 1 else 0,
    is_fumble := if fumble_mask then 1 else 0,
    result := if int_mask && td_mask then "Interception, Touchdown"
      else if fumble_mask && td_mask then "Fumble, Touchdown"
      else r.result,
    expected_points := if (int_mask || fumble_mask) && td_mask then some (-7)
      else if safety_mask then some (-2)
      else r.expected_points,
    dst_points := (if td_mask then 7 else 0) + (if safety_mask then 2 else 0) }

/-- The `field_goal_mask` result list of `add_field_goal_points`. -/
def fg_attempt_results : List String :=
  ["Field Goal", "Missed FG", "Blocked FG", "Blocked FG, Downs"]

/-- The `made_field_goal` indicator column. -/
def made_field_goal (r : ScoredDrive) : ℚ :=
  if r.result = "Field Goal" then 1 else 0

/-- The per-end-bucket field-goal make rate: mean of `made_field_goal` over
the field-goal-attempt rows of the table whose `end_yard_line_bin` is `b`. -/
def fgGroupRate (df : List ScoredDrive) (b : String) : ℚ :=
  let g := df.filter fun x =>
    decide (x.result ∈ fg_attempt_results) && decide (x.end_yard_line_bin = some b)
  (g.map made_field_goal).sum / (g.length : ℚ)

/-- `add_field_goal_points` on one row: field-goal-attempt rows get
`expected_points := make-rate × 3` of their end bucket (rows whose end bucket
is `NaN` are dropped by the groupby, so their transform value is `NaN`). -/
def fg_points_row (df : List ScoredDrive) (r : ScoredDrive) : ScoredDrive :=
  if r.result ∈ fg_attempt_results then
    { r with expected_points := r.end_yard_line_bin.map fun b => fgGroupRate df b * 3 }
  else r

/-- `add_field_goal_points` over the table. -/
def add_field_goal_points (df : List ScoredDrive) : List ScoredDrive :=
  df.map (fg_points_row df)

/-- The expected-points estimator pipeline: `mark_offensive_scores`, then
`mark_dst_scores` (both row-local, applied per season by `preprocess_drives`),
then `add_field_goal_points` over the combined table (`postprocess_drives`). -/
def estimate_expected_points (df : List ScoredDrive) : List ScoredDrive :=
  add_field_goal_points (df.map fun r => mark_dst_row (mark_offensive_row r))

/-! ### Field-position adjuster (`add_field_position_points`, `score_teams.py`
lines 318-350) -/

/-- `start_opp_expected_start`: per-row mean of `next_start_yard_line` over
the rows sharing the row's `start_yard_line_bin` (`NaN` when the bin is
`NaN`). -/
def start_opp_expected_start (df : List ScoredDrive) (r : ScoredDrive) : Option ℚ :=
  r.start_yard_line_bin.bind fun b =>
    optMean ((df.filter fun x => decide (x.start_yard_line_bin = some b)).map
      fun x => x.next_start_yard_line)

/-- `end_opp_expected_start`: the same mean grouped by `end_yard_line_bin`. -/
def end_opp_expected_start (df : List ScoredDrive) (r : ScoredDrive) : Option ℚ :=
  r.end_yard_line_bin.bind fun b =>
    optMean ((df.filter fun x => decide (x.end_yard_line_bin = some b)).map
      fun x => x.next_start_yard_line)

/-- The `nfl_agg` dictionary: start-bucket label to league-average
`expected_points`; a label with no rows is absent from the dictionary, and the
`.map(nfl_agg)` lookup of an absent key gives `NaN` — both cases are the
`none` of `optMean` on the empty / all-`NaN` group. -/
def nfl_agg (df : List ScoredDrive) (b : String) : Option ℚ :=
  optMean ((df.filter fun x => decide (x.start_yard_line_bin = some b)).map
    fun x => x.expected_points)

/-- `expected_points_opp_from_start`: bin the from-start expected opponent
entry and look it up in `nfl_agg`. -/
def expected_points_opp_from_start (df : List ScoredDrive) (r : ScoredDrive) : Option ℚ :=
  (bin_yard_line_value (start_opp_expected_start df r)).bind (nfl_agg df)

/-- `expected_points_opp_from_end`: bin the from-end expected opponent entry
and look it up in `nfl_agg`. -/
def expected_points_opp_from_end (df : List ScoredDrive) (r : ScoredDrive) : Option ℚ :=
  (bin_yard_line_value (end_opp_expected_start df r)).bind (nfl_agg df)

/-- `add_field_position_points` on one row: `field_position_points` is the
lookup difference and `drive_score = expected_points + field_position_points`,
with `NaN` propagating through both operations. -/
def field_position_row (df : List ScoredDrive) (r : ScoredDrive) : ScoredDrive :=
  let fpp := optSub (expected_points_opp_from_start df r) (expected_points_opp_from_end df r)
  { r with
    field_position_points := fpp,
    drive_score := optAdd r.expected_points fpp }

/-- `add_field_position_points` over the table. -/
def add_field_position_points (df : List ScoredDrive) : List ScoredDrive :=
  df.map (field_position_row df)

/-! ### Re-centering (`score_drives`, `score_teams.py` lines 23-25) -/

/-- The `nfl_avg_score` column: per-row mean of `drive_score` over the rows
sharing the row's `start_yard_line_bin`. -/
def nfl_avg_score (df : List ScoredDrive) (r : ScoredDrive) : Option ℚ :=
  r.start_yard_line_bin.bind fun b =>
    optMean ((df.filter fun x => decide (x.start_yard_line_bin = some b)).map
      fun x => x.drive_score)

/-- One row of the re-centering `df['drive_score'] -= df['nfl_avg_score']`. -/
def recenter_row (df : List ScoredDrive) (r : ScoredDrive) : ScoredDrive :=
  { r with drive_score := optSub r.drive_score (nfl_avg_score df r) }

/-- The re-centering of `score_drives` (lines 23-25), applied before the
opponent-strength adjustment. -/
def recenter_drive_scores (df : List ScoredDrive) : List ScoredDrive :=
  df.map (recenter_row df)

/-! ### Opponent-strength iterator (`opponent_strength_adjustment`,
`score_teams.py` lines 31-47) -/

/-- A drive row as seen by the opponent-strength iterator. -/
structure AdjDrive where
  season : ℤ
  offensive_team : String
  defensive_team : String
  drive_score : ℚ
  adj_offensive_score : ℚ
  adj_defensive_score : ℚ
deriving DecidableEq

/-- The `offensive_adj` column: mean `adj_defensive_score` over the row's
`(season, defensive_team)` group. -/
def offensive_adj (df : List AdjDrive) (r : AdjDrive) : ℚ :=
  let g := df.filter fun x =>
    decide (x.season = r.season) && decide (x.defensive_team = r.defensive_team)
  (g.map fun x => x.adj_defensive_score).sum / (g.length : ℚ)

/-- The `defensive_adj` column: mean `adj_offensive_score` over the row's
`(season, offensive_team)` group. -/
def defensive_adj (df : List AdjDrive) (r : AdjDrive) : ℚ :=
  let g := df.filter fun x =>
    decide (x.season = r.season) && decide (x.offensive_team = r.offensive_team)
  (g.map fun x => x.adj_offensive_score).sum / (g.length : ℚ)

/-- One round of the iterator: both `*_adj` columns are computed from the
pre-update adjusted scores, then `step_size × adj` is subtracted. -/
def adjustment_step (step_size : ℚ) (df : List AdjDrive) : List AdjDrive :=
  df.map fun r =>
    { r with
      adj_offensive_score := r.adj_offensive_score - step_size * offensive_adj df r,
      adj_defensive_score := r.adj_defensive_score - step_size * defensive_adj df r }

/-- The `for i in range(n_iters)` loop. -/
def iterate_adjustment (step_size : ℚ) : Nat → List AdjDrive → List AdjDrive
  | 0, df => df
  | n + 1, df => iterate_adjustment step_size n (adjustment_step step_size df)

/-- The initialisation `adj_offensive_score = adj_defensive_score =
drive_score` of lines 33-34. -/
def init_adjustment (df : List AdjDrive) : List AdjDrive :=
  df.map fun r =>
    { r with adj_offensive_score := r.drive_score, adj_defensive_score := r.drive_score }

/-- `opponent_strength_adjustment`: initialise, then run `n_iters` rounds. -/
def opponent_strength_adjustment (df : List AdjDrive) (n_iters : Nat) (step_size : ℚ) :
    List AdjDrive :=
  iterate_adjustment step_size n_iters (init_adjustment df)

/-! ### Concrete tables used by witnesses and counterexamples -/

/-- A one-game season table (two drives of one game) for the playoff-cutoff
witness. -/
def exSeasonTable : List SeasonDrive :=
  [⟨2018, "2018090600", 1, "15:00"⟩, ⟨2018, "2018090600", 2, "11:23"⟩]

/-- A drive whose result is `Punt` but whose closing play text reports an
un-negated touchdown (a punt returned for a touchdown). -/
def cexPuntRow : ScoredDrive :=
  ⟨"Punt", "J.Doe punts 51 yards. R.Roe for 78 yards, TOUCHDOWN.".toList,
    some "20-30", some "30-40", some 95, some 0, 0, 0, 0, 0, 0, 0, 0, none, none⟩

/-- A drive whose result is `Fumble` and whose closing play text reports an
un-negated touchdown (a fumble returned for a touchdown). -/
def wFumbleRow : ScoredDrive :=
  ⟨"Fumble", "J.Doe FUMBLES, recovered by D.Back, for 45 yards, TOUCHDOWN.".toList,
    some "20-30", some "40-50", some 95, some 0, 0, 0, 0, 0, 0, 0, 0, none, none⟩

/-- A touchdown drive for the expected-points witness. -/
def wTdRow : ScoredDrive :=
  ⟨"Touchdown", "T.Back up the middle for 2 yards, TOUCHDOWN.".toList,
    some "20-30", some "90-100", none, none, 0, 0, 0, 0, 0, 0, 0, none, none⟩

/-- A made field goal ending in the `20-30` bucket. -/
def wFgRow : ScoredDrive :=
  ⟨"Field Goal", "K.Icker 48 yard field goal is GOOD.".toList,
    some "30-40", some "20-30", some 70, none, 0, 0, 0, 0, 0, 0, 0, none, none⟩

/-- A missed field goal ending in the same `20-30` bucket. -/
def wMissRow : ScoredDrive :=
  ⟨"Missed FG", "K.Icker 47 yard field goal is No Good.".toList,
    some "40-50", some "20-30", some 70, none, 0, 0, 0, 0, 0, 0, 0, none, none⟩

/-- The three-drive corpus of the expected-points witness: the `20-30` end
bucket holds one made and one missed field goal, so its make rate is 1/2. -/
def wEstTable : List ScoredDrive := [wTdRow, wFgRow, wMissRow]

/-- A single drive whose expected opponent entry (mean 95, bucket `90-100`)
points at a start bucket in which no drive ever started. -/
def w8Row : ScoredDrive :=
  ⟨"Punt", "J.Doe punts 40 yards, fair catch.".toList,
    some "0-10", some "20-30", some 95, some 0, 0, 0, 0, 0, 0, 0, 0, none, none⟩

/-- The one-row table of the missing-bucket witness. -/
def w8Table : List ScoredDrive := [w8Row]

/-- Two drives sharing the start bucket `0-10` with finite scores 1 and 3
(mean 2), for the re-centering witness. -/
def w10Table : List ScoredDrive :=
  [⟨"Punt", "p1".toList, some "0-10", some "30-40", some 60, some 0, 0, 0,
      0, 0, 0, 0, 0, none, some 1⟩,
   ⟨"Punt", "p2".toList, some "0-10", some "40-50", some 55, some 0, 0, 0,
      0, 0, 0, 0, 0, none, some 3⟩]

/-- A two-season, two-team round-robin with identical per-season team means
(+1 in season 1, −1 in season 2) and global mean 0: a balanced schedule whose
drive scores the iterator nevertheless shrinks. -/
def cexAdjTable : List AdjDrive :=
  [⟨1, "A", "B", 1, 0, 0⟩, ⟨1, "B", "A", 1, 0, 0⟩,
   ⟨2, "A", "B", -1, 0, 0⟩, ⟨2, "B", "A", -1, 0, 0⟩]

/-- A one-season table in which every team-season mean drive score (by either
grouping) is zero. -/
def wAdjTable : List AdjDrive :=
  [⟨1, "A", "B", 2, 0, 0⟩, ⟨1, "A", "B", -2, 0, 0⟩, ⟨1, "B", "A", 0, 0, 0⟩]

/-- A game whose home team scored 7 in quarter 1 and nothing later, against a
scoreless away team. -/
def exGame : GameScoreTable :=
  ⟨fun q => if q = 1 then 7 else 0, fun _ => 0⟩

/-- Two consecutive drives of one game with the same offense (a continuation,
e.g. after a fumble recovered by the offense). -/
def cexRowA : RawDrive := ⟨"2018090600", "A", "H", "V", some 25, some 40⟩

/-- Second drive of the continuation pair: same game, same offense. -/
def cexRowB : RawDrive := ⟨"2018090600", "A", "H", "V", some 40, some 60⟩

/-- First of two consecutive drives of one game with alternating offenses. -/
def wRowA : RawDrive := ⟨"2018090600", "A", "H", "V", some 25, some 40⟩

/-- Second of two consecutive drives of one game with alternating offenses. -/
def wRowB : RawDrive := ⟨"2018090600", "B", "H", "V", some 60, some 80⟩

/-- The intervals of `pdCutBins` are exactly the `(10*i, 10*i+10)` pairs,
`i < 10`. -/
lemma mem_pdCutBins {b : Nat × Nat} :
    b ∈ pdCutBins ↔ ∃ i, i < 10 ∧ b = (10 * i, 10 * i + 10) := by
  simp only [pdCutBins, List.mem_map, List.mem_range]
  constructor
  · rintro ⟨i, hi, rfl⟩; exact ⟨i, hi, rfl⟩
  · rintro ⟨i, hi, rfl⟩; exact ⟨i, hi, rfl⟩

/-- Two intervals of `pdCutBins` that both contain the same value coincide. -/
lemma pdCutBins_disjoint {x : ℚ} {b b' : Nat × Nat}
    (hb : b ∈ pdCutBins) (hb' : b' ∈ pdCutBins)
    (h1 : (b.1 : ℚ) < x) (h2 : x ≤ (b.2 : ℚ))
    (h1' : (b'.1 : ℚ) < x) (h2' : x ≤ (b'.2 : ℚ)) : b = b' := by
  obtain ⟨i, _, rfl⟩ := mem_pdCutBins.mp hb
  obtain ⟨j, _, rfl⟩ := mem_pdCutBins.mp hb'
  have hij : (10 * i : ℚ) < (10 * j + 10 : ℕ) := lt_of_lt_of_le (by exact_mod_cast h1) h2'
  have hji : (10 * j : ℚ) < (10 * i + 10 : ℕ) := lt_of_lt_of_le (by exact_mod_cast h1') h2
  have hij' : 10 * i < 10 * j + 10 := by exact_mod_cast hij
  have hji' : 10 * j < 10 * i + 10 := by exact_mod_cast hji
  have : i = j := by omega
  subst this; rfl

/-- `pdCut` characterisation: `pdCut x = some b` exactly when `b` is one of
the ten intervals and `x` lies in the right-closed interval `(b.1, b.2]`. -/
lemma pdCut_eq_some_iff {x : ℚ} {b : Nat × Nat} :
    pdCut x = some b ↔ b ∈ pdCutBins ∧ (b.1 : ℚ) < x ∧ x ≤ (b.2 : ℚ) := by
  constructor
  · intro h
    have hmem := List.mem_of_find?_eq_some h
    have hp := List.find?_some h
    simp only [Bool.and_eq_true, decide_eq_true_eq] at hp
    exact ⟨hmem, hp.1, hp.2⟩
  · rintro ⟨hmem, h1, h2⟩
    have hex : ∃ y ∈ pdCutBins,
        (decide ((y.1 : ℚ) < x) && decide (x ≤ (y.2 : ℚ))) = true := by
      refine ⟨b, hmem, ?_⟩
      simp [h1, h2]
    have hsome := List.find?_isSome.mpr hex
    obtain ⟨b', hb'⟩ := Option.isSome_iff_exists.mp hsome
    have hmem' := List.mem_of_find?_eq_some hb'
    have hp' := List.find?_some hb'
    simp only [Bool.and_eq_true, decide_eq_true_eq] at hp'
    have : b' = b := pdCutBins_disjoint hmem' hmem hp'.1 hp'.2 h1 h2
    rwa [this] at hb'

/-- Every rational in `(0, 100]` lies in the right-closed interval
`(10*k, 10*k+10]` for `k = (⌈x⌉₊ - 1) / 10 < 10`. -/
lemma exists_pdCut_mem {x : ℚ} (h0 : 0 < x) (h100 : x ≤ 100) :
    ∃ k : ℕ, k < 10 ∧ ((10 * k : ℕ) : ℚ) < x ∧ x ≤ ((10 * k + 10 : ℕ) : ℚ) := by
  have hxc : x ≤ (⌈x⌉₊ : ℚ) := Nat.le_ceil x
  have hcx : (⌈x⌉₊ : ℚ) < x + 1 := Nat.ceil_lt_add_one (le_of_lt h0)
  have hc1 : 1 ≤ ⌈x⌉₊ := by
    rcases Nat.eq_zero_or_pos ⌈x⌉₊ with hz | hp
    · rw [hz] at hxc; norm_num at hxc; linarith
    · exact hp
  have hc100 : ⌈x⌉₊ ≤ 100 := by
    have h' : x ≤ ((100 : ℕ) : ℚ) := by exact_mod_cast h100
    exact Nat.ceil_le.mpr h'
  set c := ⌈x⌉₊ with hcdef
  have hcast : ((c - 1 : ℕ) : ℚ) = (c : ℚ) - 1 := by
    rw [Nat.cast_sub hc1]; norm_num
  refine ⟨(c - 1) / 10, by omega, ?_, ?_⟩
  · have hk1 : 10 * ((c - 1) / 10) ≤ c - 1 := by omega
    have h1 : ((10 * ((c - 1) / 10) : ℕ) : ℚ) ≤ ((c - 1 : ℕ) : ℚ) := by exact_mod_cast hk1
    have h2 : ((c - 1 : ℕ) : ℚ) < x := by rw [hcast]; linarith
    exact lt_of_le_of_lt h1 h2
  · have hk2 : c ≤ 10 * ((c - 1) / 10) + 10 := by omega
    have h1 : (c : ℚ) ≤ ((10 * ((c - 1) / 10) + 10 : ℕ) : ℚ) := by exact_mod_cast hk2
    exact le_trans hxc h1


/-! ### Helper lemmas -/

/-- `get_next_opponent_drive` preserves the table length. -/
lemma length_gnod (df : List RawDrive) :
    (get_next_opponent_drive df).length = df.length := by
  induction df with
  | nil => rfl
  | cons r rest ih => simp [get_next_opponent_drive, ih]

/-- Row `i` of `get_next_opponent_drive` is built from row `i` and the
optional row `i+1` of the input. -/
lemma gnod_getElem (df : List RawDrive) (i : ℕ) (h : i < df.length)
    (h2 : i < (get_next_opponent_drive df).length) :
    (get_next_opponent_drive df)[i] = mkLinked df[i] df[i+1]? := by
  induction df generalizing i with
  | nil => simp at h
  | cons r rest ih =>
      cases i with
      | zero =>
          cases rest with
          | nil => rfl
          | cons r2 rest2 => simp [get_next_opponent_drive, List.head?]
      | succ j =>
          have hj : j < rest.length := by simpa using h
          have hj2 : j < (get_next_opponent_drive rest).length := by
            rw [length_gnod]; exact hj
          simpa [get_next_opponent_drive] using ih j hj hj2

/-- A `List.range' 1 n` sum is the `Finset.Icc 1 n` sum. -/
lemma sum_map_range'_one (f : ℕ → ℤ) :
    ∀ n : ℕ, ((List.range' 1 n).map f).sum = ∑ i in Finset.Icc 1 n, f i := by
  intro n
  induction n with
  | zero => simp
  | succ m ih =>
      have h1 : List.range' 1 (m + 1) 1 = List.range' 1 m 1 ++ [1 + 1 * m] :=
        List.range'_concat 1 m
      rw [h1, List.map_append, List.sum_append, ih,
        Finset.sum_Icc_succ_top (Nat.le_add_left 1 m)]
      simp [Nat.add_comm]

/-! ### Claim C1 — yard-line bucket coverage -/

/-- Claim C1, counterexample: the buckets built by `bin_yard_lines` are
right-closed (`pd.IntervalIndex.from_tuples` defaults to `closed='right'`), so
the boundary value 50 falls in the bucket `(40,50]` — not `[50,60)` as the
claim states — and the value 0 falls in no bucket at all, contradicting
"every finite field-position value in [0,100] maps to exactly one bucket". -/
theorem c1_bucket_coverage_cex :
    pdCut (50 : ℚ) = some (40, 50) ∧ ((40, 50) : Nat × Nat) ≠ (50, 60)
      ∧ pdCut (0 : ℚ) = none := by
  refine ⟨by decide, by decide, by decide⟩

/-- Claim C1 (amended): every finite field-position value in `(0, 100]` is
assigned by the binning to exactly one of the ten 10-yard buckets; the buckets
are half-open intervals `(x, x+10]` (left-open, right-closed), and the
boundary value 50 maps to the bucket `(40,50]`, labelled `"40-50"`. -/
theorem c1_bucket_coverage_amended :
    (∀ x : ℚ, 0 < x → x ≤ 100 →
      ∃ b, pdCut x = some b ∧ (b.1 : ℚ) < x ∧ x ≤ (b.2 : ℚ) ∧
        ∀ b' ∈ pdCutBins, ((b'.1 : ℚ) < x → x ≤ (b'.2 : ℚ) → b' = b))
    ∧ pdCut 50 = some (40, 50) ∧ bin_yard_line_value (some 50) = some "40-50" := by
  refine ⟨?_, by decide, by decide⟩
  intro x h0 h100
  obtain ⟨k, hk, h1, h2⟩ := exists_pdCut_mem h0 h100
  have hmem : ((10 * k, 10 * k + 10) : Nat × Nat) ∈ pdCutBins :=
    mem_pdCutBins.mpr ⟨k, hk, rfl⟩
  refine ⟨(10 * k, 10 * k + 10), pdCut_eq_some_iff.mpr ⟨hmem, h1, h2⟩, h1, h2, ?_⟩
  intro b' hb' hb'1 hb'2
  exact pdCutBins_disjoint hb' hmem hb'1 hb'2 h1 h2

/-- Claim C1, witness: the amended coverage theorem applied at the boundary
value 50. -/
theorem c1_bucket_coverage_witness :
    ∃ b, pdCut (50 : ℚ) = some b ∧ (b.1 : ℚ) < 50 ∧ (50 : ℚ) ≤ (b.2 : ℚ) ∧
      ∀ b' ∈ pdCutBins, ((b'.1 : ℚ) < 50 → (50 : ℚ) ≤ (b'.2 : ℚ) → b' = b) :=
  c1_bucket_coverage_amended.1 50 (by norm_num) (by norm_num)

/-! ### Claim C7 — start yard line computation -/

/-- Claim C7: `format_yardline` computes the start yard line by a single rule:
the raw value `"50"` yields 50; a `"<TEAM> <N>"` token yields `N` when
`<TEAM>` equals the offensive team and `100 - N` otherwise; an absent (empty)
raw value yields the undefined sentinel. -/
theorem c7_format_yardline (team : List Char) :
    format_yardline "50".toList team = some 50
  ∧ format_yardline [] team = none
  ∧ ∀ yrdln side n_str n, yrdln ≠ "50".toList → yrdln ≠ ([] : List Char) →
      splitOnChar ' ' yrdln = [side, n_str] → parseNat n_str = some n →
      format_yardline yrdln team
        = some (if side = team then (n : ℤ) else 100 - (n : ℤ)) := by
  have h50 : "50".toList = ['5', '0'] := by decide
  refine ⟨by simp [format_yardline], ?_, ?_⟩
  · simp [format_yardline, h50]
  · intro yrdln side n_str n hne50 hne hsplit hparse
    simp only [format_yardline]
    rw [if_neg hne50, if_pos hne, hsplit]
    simp only [yardline_from_token, hparse]
    by_cases hst : side = team <;> simp [hst]

/-- Claim C7, witness: the rule evaluated on the raw value `"CHI 30"` for
offense `"DEN"` (opponent side, so `100 - 30`), and on the raw value `"50"`. -/
theorem c7_format_yardline_witness :
    format_yardline "CHI 30".toList "DEN".toList = some 70
  ∧ format_yardline "50".toList "DEN".toList = some 50 := by
  constructor
  · have h := (c7_format_yardline "DEN".toList).2.2 "CHI 30".toList "CHI".toList
      "30".toList 30 (by decide) (by decide) (by decide) (by decide)
    exact h.trans (by decide)
  · exact (c7_format_yardline "DEN".toList).1

/-! ### Claim C9 — score differential of completed prior quarters -/

/-- Claim C9: the home-minus-away score differential field is 0 for a drive
starting in quarter 1, and otherwise is (the decimal rendering of) the sum of
the home team's per-quarter scores minus the sum of the away team's
per-quarter scores over exactly the completed quarters `1 .. start_quarter-1`;
no points of the drive's own quarter are included. -/
theorem c9_score_differential (game : GameScoreTable) (q : Nat) :
    (q = 1 → format_score_differential game q = Sum.inl 0)
  ∧ (2 ≤ q → format_score_differential game q =
      Sum.inr (toString ((∑ i in Finset.Icc 1 (q - 1), game.home_score i)
        - ∑ i in Finset.Icc 1 (q - 1), game.away_score i))) := by
  constructor
  · intro h; subst h; simp [format_score_differential]
  · intro h
    have hne : q ≠ 1 := by omega
    simp [format_score_differential, hne, sum_map_range'_one]

/-- Claim C9, witness: the differential for a drive starting in quarter 2 of
`exGame` sums exactly quarter 1, and a quarter-1 drive gets 0. -/
theorem c9_score_differential_witness :
    format_score_differential exGame 1 = Sum.inl 0
  ∧ format_score_differential exGame 2 =
      Sum.inr (toString ((∑ i in Finset.Icc 1 1, exGame.home_score i)
        - ∑ i in Finset.Icc 1 1, exGame.away_score i)) :=
  ⟨(c9_score_differential exGame 1).1 rfl,
   (c9_score_differential exGame 2).2 (by norm_num)⟩

/-! ### Claim C4 — next-drive linkage -/

/-- Claim C4, counterexample: for two consecutive drives of the same game with
the *same* offensive team, the claim says every `next_*` field of the earlier
drive is undefined, but the code blanks only `next_start_yard_line` /
`next_end_yard_line` (`score_teams.py` lines 164-165): `next_offensive_team`
keeps the shifted value `some "A"` because line 166 applies only
`new_game_mask`. -/
theorem c4_next_drive_linkage_cex :
    cexRowA.offensive_team = cexRowB.offensive_team
  ∧ cexRowA.home_team = cexRowB.home_team ∧ cexRowA.away_team = cexRowB.away_team
  ∧ (get_next_opponent_drive [cexRowA, cexRowB]).head?.map
      (fun r => r.next_offensive_team) = some (some "A")
  ∧ (get_next_opponent_drive [cexRowA, cexRowB]).head?.map
      (fun r => r.next_start_yard_line) = some none := by
  refine ⟨rfl, rfl, rfl, by decide, by decide⟩

/-- Claim C4 (amended): games are identified by the `(home_team, away_team)`
pair of adjacent rows.  For consecutive records with the same pair: when the
offensive teams differ, the earlier drive's `next_start_yard_line` equals the
later drive's `start_yard_line` and `next_offensive_team` equals the later
drive's offensive team; when the offensive teams are equal,
`next_start_yard_line` is undefined but `next_offensive_team` still equals the
later (same-team) drive's offensive team.  When the pair differs, both fields are
undefined. -/
theorem c4_next_drive_linkage (df : List RawDrive) (i : ℕ) (h : i + 1 < df.length)
    (h2 : i < (get_next_opponent_drive df).length) :
    (df[i].home_team = df[i+1].home_team → df[i].away_team = df[i+1].away_team →
      df[i].offensive_team ≠ df[i+1].offensive_team →
      (get_next_opponent_drive df)[i].next_start_yard_line = df[i+1].start_yard_line ∧
      (get_next_opponent_drive df)[i].next_offensive_team = some df[i+1].offensive_team)
  ∧ (df[i].home_team = df[i+1].home_team → df[i].away_team = df[i+1].away_team →
      df[i].offensive_team = df[i+1].offensive_team →
      (get_next_opponent_drive df)[i].next_start_yard_line = none ∧
      (get_next_opponent_drive df)[i].next_offensive_team = some df[i+1].offensive_team)
  ∧ ((df[i].home_team ≠ df[i+1].home_team ∨ df[i].away_team ≠ df[i+1].away_team) →
      (get_next_opponent_drive df)[i].next_start_yard_line = none ∧
      (get_next_opponent_drive df)[i].next_offensive_team = none) := by
  have hi : i < df.length := by omega
  have hnext : df[i+1]? = some df[i+1] := List.getElem?_eq_getElem h
  rw [gnod_getElem df i hi h2, hnext]
  refine ⟨?_, ?_, ?_⟩
  · intro hh ha ho
    simp [mkLinked, hh, ha, ho]
  · intro hh ha ho
    simp [mkLinked, hh, ha, ho]
  · intro hnew
    rcases hnew with hh | ha
    · simp [mkLinked, hh]
    · simp [mkLinked, ha]

/-- Claim C4, witness: the amended linkage evaluated on a two-drive game with
alternating offenses: the first drive's `next_start_yard_line` is the second
drive's `start_yard_line` and its `next_offensive_team` is the second drive's
offense. -/
theorem c4_next_drive_linkage_witness :
    ((get_next_opponent_drive [wRowA, wRowB]).get
        ⟨0, by simp [get_next_opponent_drive]⟩).next_start_yard_line
      = wRowB.start_yard_line
  ∧ ((get_next_opponent_drive [wRowA, wRowB]).get
        ⟨0, by simp [get_next_opponent_drive]⟩).next_offensive_team
      = some wRowB.offensive_team :=
  (c4_next_drive_linkage [wRowA, wRowB] 0 (by norm_num)
    (by simp [get_next_opponent_drive])).1 rfl rfl (by decide)

/-! ### Claim C6 — playoff cutoff -/

/-- The running per-season marker count at any position is at most the
season's total marker count. -/
lemma game_in_season_at_le_total (s : List SeasonDrive) (i : Nat) (r : SeasonDrive) :
    game_in_season_at s i r ≤
      ((s.filter fun x => decide (x.season = r.season)).map unique_game_flag).sum := by
  conv_rhs => rw [← List.take_append_drop (i + 1) s]
  rw [List.filter_append, List.map_append, List.sum_append]
  exact Nat.le_add_right _ _

/-- Claim C6: after sorting by `(game_id asc, start_quarter asc, start_time
desc)` and marking rows with `start_quarter = 1` and `start_time = "15:00"` as
game-starts, a drive has `is_playoffs = 1` iff the cumulative count of
game-starts within its season, at its position in the sorted order, exceeds
256; consequently in a season whose total count is at most 256 (in particular
exactly 256) no drive is flagged, and every drive at or past the 257th
game-start is flagged. -/
theorem c6_playoff_cutoff (df : List SeasonDrive) (i : Nat)
    (h2 : i < (mark_playoffs df).length) (hs : i < (sortByKey driveLE df).length) :
    ((mark_playoffs df)[i].is_playoffs = 1 ↔
        256 < game_in_season_at (sortByKey driveLE df) i ((sortByKey driveLE df)[i]))
  ∧ ((((sortByKey driveLE df).filter fun x =>
        decide (x.season = ((sortByKey driveLE df)[i]).season)).map unique_game_flag).sum ≤ 256
      → (mark_playoffs df)[i].is_playoffs = 0) := by
  have hrow : (mark_playoffs df)[i] =
      ⟨(sortByKey driveLE df)[i],
        game_in_season_at (sortByKey driveLE df) i ((sortByKey driveLE df)[i]),
        if 256 < game_in_season_at (sortByKey driveLE df) i ((sortByKey driveLE df)[i])
          then 1 else 0⟩ := by
    simp [mark_playoffs]
  rw [hrow]
  constructor
  · show (if 256 < game_in_season_at (sortByKey driveLE df) i ((sortByKey driveLE df)[i])
        then 1 else 0) = 1 ↔ _
    by_cases hg : 256 < game_in_season_at (sortByKey driveLE df) i ((sortByKey driveLE df)[i])
    · simp [hg]
    · simp [hg]
  · intro htot
    have hle := game_in_season_at_le_total (sortByKey driveLE df) i ((sortByKey driveLE df)[i])
    have hng : ¬ 256 < game_in_season_at (sortByKey driveLE df) i ((sortByKey driveLE df)[i]) := by
      omega
    show (if 256 < game_in_season_at (sortByKey driveLE df) i ((sortByKey driveLE df)[i])
        then 1 else 0) = 0
    simp [hng]

/-- Claim C6, witness: in a one-game season (total marker count 1 ≤ 256), the
game's first drive is not flagged as playoffs. -/
theorem c6_playoff_cutoff_witness :
    ((mark_playoffs exSeasonTable).get ⟨0, by decide⟩).is_playoffs = 0 :=
  (c6_playoff_cutoff exSeasonTable 0 (by decide) (by decide)).2 (by decide)

/-! ### Claim C2 — defensive/return scores -/

/-- Claim C2, counterexample: a drive with `result = "Punt"` whose closing
play text contains an un-negated `TOUCHDOWN` (a punt-return touchdown).  Its
result category does not record a touchdown, yet `mark_dst_scores` leaves
`expected_points` untouched (0, not −7) and does not amend `result`: the −7
overwrite applies only to the `Interception` and `Fumble` masks
(`score_teams.py` lines 225-228). -/
theorem c2_dst_scores_cex :
    cexPuntRow.result = "Punt"
  ∧ td_text_signal cexPuntRow.last_play_desc
  ∧ (mark_dst_row cexPuntRow).expected_points = some 0
  ∧ (mark_dst_row cexPuntRow).result = "Punt" := by
  refine ⟨rfl, ⟨by decide, by decide, by decide⟩, by decide, by decide⟩

/-- Claim C2 (amended): for every drive whose result is exactly
`"Interception"` or `"Fumble"`, if its last play description contains
`TOUCHDOWN` not textually negated by `REVERSED` or `NULLIFIED`, then
`expected_points` is set to −7 and `result` is amended in place to the
compound value; and every drive whose result is `"Safety"` or
`"Fumble, Safety"` gets `expected_points = -2`. -/
theorem c2_dst_scores (r : ScoredDrive) :
    (r.result = "Interception" → td_text_signal r.last_play_desc →
      (mark_dst_row r).result = "Interception, Touchdown"
        ∧ (mark_dst_row r).expected_points = some (-7))
  ∧ (r.result = "Fumble" → td_text_signal r.last_play_desc →
      (mark_dst_row r).result = "Fumble, Touchdown"
        ∧ (mark_dst_row r).expected_points = some (-7))
  ∧ ((r.result = "Safety" ∨ r.result = "Fumble, Safety") →
      (mark_dst_row r).expected_points = some (-2)) := by
  refine ⟨?_, ?_, ?_⟩
  · intro hres ⟨h1, h2, h3⟩
    constructor <;> simp [mark_dst_row, hres, h1, h2, h3]
  · intro hres ⟨h1, h2, h3⟩
    constructor <;> simp [mark_dst_row, hres, h1, h2, h3]
  · rintro (hres | hres) <;> simp [mark_dst_row, hres]

/-- Claim C2, witness: the amendment evaluated on a fumble returned for a
touchdown. -/
theorem c2_dst_scores_witness :
    (mark_dst_row wFumbleRow).result = "Fumble, Touchdown"
  ∧ (mark_dst_row wFumbleRow).expected_points = some (-7) :=
  (c2_dst_scores wFumbleRow).2.1 rfl ⟨by decide, by decide, by decide⟩

/-! ### Claim C5 — touchdown and field-goal expected points -/

/-- `mark_dst_scores` rewrites `result` only for the interception / fumble
amendments; otherwise `result` is untouched. -/
lemma mark_dst_row_result_cases (r : ScoredDrive) :
    (mark_dst_row r).result = r.result
  ∨ (r.result = "Interception" ∧ (mark_dst_row r).result = "Interception, Touchdown")
  ∨ (r.result = "Fumble" ∧ (mark_dst_row r).result = "Fumble, Touchdown") := by
  simp only [mark_dst_row]
  split_ifs with h1 h2
  · right; left
    refine ⟨?_, rfl⟩
    simp only [Bool.and_eq_true, beq_iff_eq] at h1
    exact h1.1
  · right; right
    refine ⟨?_, rfl⟩
    simp only [Bool.and_eq_true, beq_iff_eq] at h2
    exact h2.1
  · left; rfl

/-- The marking passes do not change whether a row is a field-goal attempt,
nor its end bucket (as a filter predicate). -/
lemma mark_row_pred_eq (b : String) (x : ScoredDrive) :
    (decide ((mark_dst_row (mark_offensive_row x)).result ∈ fg_attempt_results)
      && decide ((mark_dst_row (mark_offensive_row x)).end_yard_line_bin = some b))
    = (decide (x.result ∈ fg_attempt_results)
      && decide (x.end_yard_line_bin = some b)) := by
  have hbin : (mark_dst_row (mark_offensive_row x)).end_yard_line_bin
      = x.end_yard_line_bin := rfl
  rw [hbin]
  congr 1
  rcases mark_dst_row_result_cases (mark_offensive_row x) with h | ⟨hres, h⟩ | ⟨hres, h⟩
  · rw [h]
    rfl
  · have hx : x.result = "Interception" := hres
    rw [h, hx]
    decide
  · have hx : x.result = "Fumble" := hres
    rw [h, hx]
    decide

/-- The marking passes do not change the `made_field_goal` indicator. -/
lemma mark_row_made_eq (x : ScoredDrive) :
    made_field_goal (mark_dst_row (mark_offensive_row x)) = made_field_goal x := by
  unfold made_field_goal
  rcases mark_dst_row_result_cases (mark_offensive_row x) with h | ⟨hres, h⟩ | ⟨hres, h⟩
  · rw [h]
    rfl
  · have hx : x.result = "Interception" := hres
    rw [h, hx]
    simp
  · have hx : x.result = "Fumble" := hres
    rw [h, hx]
    simp

/-- The field-goal make rate over the marked table equals the rate over the
input corpus: the marking passes preserve attempt membership, the indicator
and the end bucket. -/
lemma fgGroupRate_map_mark (df : List ScoredDrive) (b : String) :
    fgGroupRate (df.map fun r => mark_dst_row (mark_offensive_row r)) b
      = fgGroupRate df b := by
  simp only [fgGroupRate]
  rw [List.filter_map]
  simp only [Function.comp_def]
  rw [List.filter_congr fun x _ => mark_row_pred_eq b x]
  rw [List.map_map, List.length_map]
  have hmade : (List.filter (fun x => decide (x.result ∈ fg_attempt_results)
        && decide (x.end_yard_line_bin = some b)) df).map
          (made_field_goal ∘ fun r => mark_dst_row (mark_offensive_row r))
      = (List.filter (fun x => decide (x.result ∈ fg_attempt_results)
        && decide (x.end_yard_line_bin = some b)) df).map made_field_goal :=
    List.map_congr_left fun x _ => mark_row_made_eq x
  rw [hmade]

/-- The estimator pipeline preserves the table length. -/
lemma length_estimate (df : List ScoredDrive) :
    (estimate_expected_points df).length = df.length := by
  simp [estimate_expected_points, add_field_goal_points]

/-- Claim C5: in the estimator's output, every drive whose result is
`Touchdown` has `expected_points = 7`, and every drive whose result is
`Field Goal` (with a defined end bucket `b`) has `expected_points` equal to
the empirical make rate of bucket `b` — the mean of the made-field-goal
indicator over the field-goal-attempt drives of the same corpus ending in
`b` — times 3, recomputed from the corpus the estimator runs on. -/
theorem c5_expected_points (df : List ScoredDrive) (i : Nat) (h : i < df.length)
    (h2 : i < (estimate_expected_points df).length) :
    (df[i].result = "Touchdown" →
      (estimate_expected_points df)[i].expected_points = some 7)
  ∧ (∀ b, df[i].result = "Field Goal" → df[i].end_yard_line_bin = some b →
      (estimate_expected_points df)[i].expected_points
        = some (fgGroupRate df b * 3)) := by
  have hm : i < (df.map fun r => mark_dst_row (mark_offensive_row r)).length := by
    simpa using h
  have e1 : (estimate_expected_points df)[i]
      = fg_points_row (df.map fun r => mark_dst_row (mark_offensive_row r))
          (mark_dst_row (mark_offensive_row df[i])) := by
    simp [estimate_expected_points, add_field_goal_points]
  constructor
  · intro hTD
    have hres : (mark_dst_row (mark_offensive_row df[i])).result = "Touchdown" := by
      simp [mark_dst_row, mark_offensive_row, hTD]
    have hep : (mark_dst_row (mark_offensive_row df[i])).expected_points = some 7 := by
      simp [mark_dst_row, mark_offensive_row, hTD]
    have hnot : ¬ (mark_dst_row (mark_offensive_row df[i])).result ∈ fg_attempt_results := by
      rw [hres]; decide
    rw [e1]
    simp only [fg_points_row]
    rw [if_neg hnot]
    exact hep
  · intro b hFG hbin
    have hres : (mark_dst_row (mark_offensive_row df[i])).result = "Field Goal" := by
      simp [mark_dst_row, mark_offensive_row, hFG]
    have hbin2 : (mark_dst_row (mark_offensive_row df[i])).end_yard_line_bin = some b := hbin
    have hmem : (mark_dst_row (mark_offensive_row df[i])).result ∈ fg_attempt_results := by
      rw [hres]; decide
    rw [e1]
    simp only [fg_points_row]
    rw [if_pos hmem]
    show ((mark_dst_row (mark_offensive_row df[i])).end_yard_line_bin.map
      fun b => fgGroupRate (df.map fun r => mark_dst_row (mark_offensive_row r)) b * 3)
        = some (fgGroupRate df b * 3)
    rw [hbin2]
    simp [fgGroupRate_map_mark]

/-- Claim C5, witness: on the three-drive corpus `wEstTable`, the touchdown
drive gets 7 and the made field goal gets the `20-30` bucket's make rate
times 3. -/
theorem c5_expected_points_witness :
    ((estimate_expected_points wEstTable).get
        ⟨0, by rw [length_estimate]; decide⟩).expected_points = some 7
  ∧ ((estimate_expected_points wEstTable).get
        ⟨1, by rw [length_estimate]; decide⟩).expected_points
      = some (fgGroupRate wEstTable "20-30" * 3) :=
  ⟨(c5_expected_points wEstTable 0 (by decide) (by rw [length_estimate]; decide)).1 rfl,
   (c5_expected_points wEstTable 1 (by decide) (by rw [length_estimate]; decide)).2
      "20-30" rfl rfl⟩

/-! ### Claim C8 — undefined lookups propagate -/

/-- Claim C8: in the field-position adjuster, a drive whose derived
expected-opponent-entry bucket (from start or from end) has no observed
drives in the starting-bucket `expected_points` lookup gets an undefined
looked-up value, and `field_position_points` and `drive_score` are undefined
for it as well: `none` propagates through the subtraction and the addition,
never coerced to zero. -/
theorem c8_missing_bucket_propagates (df : List ScoredDrive) (r : ScoredDrive) (b : String)
    (hb : bin_yard_line_value (end_opp_expected_start df r) = some b
        ∨ bin_yard_line_value (start_opp_expected_start df r) = some b)
    (hempty : df.filter (fun x => decide (x.start_yard_line_bin = some b)) = []) :
    nfl_agg df b = none
  ∧ (field_position_row df r).field_position_points = none
  ∧ (field_position_row df r).drive_score = none := by
  have hagg : nfl_agg df b = none := by
    unfold nfl_agg
    rw [hempty]
    rfl
  have hfpp : optSub (expected_points_opp_from_start df r)
      (expected_points_opp_from_end df r) = none := by
    rcases hb with hb | hb
    · have hend : expected_points_opp_from_end df r = none := by
        unfold expected_points_opp_from_end
        rw [hb]
        simpa using hagg
      rw [hend]
      cases expected_points_opp_from_start df r <;> rfl
    · have hstart : expected_points_opp_from_start df r = none := by
        unfold expected_points_opp_from_start
        rw [hb]
        simpa using hagg
      rw [hstart]
      cases expected_points_opp_from_end df r <;> rfl
  refine ⟨hagg, ?_, ?_⟩
  · show optSub (expected_points_opp_from_start df r)
      (expected_points_opp_from_end df r) = none
    exact hfpp
  · show optAdd r.expected_points (optSub (expected_points_opp_from_start df r)
      (expected_points_opp_from_end df r)) = none
    rw [hfpp]
    cases r.expected_points <;> rfl

/-- Claim C8, witness: the one-drive table `w8Table`, whose from-end expected
opponent entry is the mean 95 (bucket `90-100`) while no drive ever started in
`90-100`; the lookup, `field_position_points` and `drive_score` are all
undefined. -/
theorem c8_missing_bucket_propagates_witness :
    nfl_agg w8Table "90-100" = none
  ∧ (field_position_row w8Table w8Row).field_position_points = none
  ∧ (field_position_row w8Table w8Row).drive_score = none :=
  c8_missing_bucket_propagates w8Table w8Row "90-100"
    (Or.inl (by
      have h1 : end_opp_expected_start w8Table w8Row = some 95 := by
        simp [end_opp_expected_start, w8Table, w8Row, optMean]
      rw [h1]
      decide))
    (by decide)

/-! ### Claim C10 — re-centering makes bucket means zero -/

/-- `filterMap id` commutes with mapping a total function under `Option.map`. -/
lemma filterMap_id_map_optmap (f : ℚ → ℚ) (vs : List (Option ℚ)) :
    (vs.map (Option.map f)).filterMap id = (vs.filterMap id).map f := by
  induction vs with
  | nil => rfl
  | cons v rest ih => cases v <;> simp [ih]

/-- Sum after subtracting a constant from every element. -/
lemma sum_map_sub (ws : List ℚ) (m : ℚ) :
    (ws.map fun x => x - m).sum = ws.sum - ws.length * m := by
  induction ws with
  | nil => simp
  | cons w rest ih =>
      simp [ih]
      ring

/-- `optMean` on a list with at least one present value. -/
lemma optMean_eq_some {xs : List (Option ℚ)} (h : (xs.filterMap id).length ≠ 0) :
    optMean xs = some ((xs.filterMap id).sum / ((xs.filterMap id).length : ℚ)) := by
  simp only [optMean]
  rw [if_neg h]

/-- Subtracting a list's `optMean` from each present value yields mean zero. -/
lemma optMean_center {xs : List (Option ℚ)} {m : ℚ} (hm : optMean xs = some m) :
    optMean (xs.map (Option.map fun v => v - m)) = some 0 := by
  have hlen : (xs.filterMap id).length ≠ 0 := by
    intro hc
    simp [optMean, hc] at hm
  have hmval : m = (xs.filterMap id).sum / ((xs.filterMap id).length : ℚ) := by
    rw [optMean_eq_some hlen] at hm
    exact (Option.some.inj hm).symm
  simp only [optMean]
  rw [filterMap_id_map_optmap]
  simp only [List.length_map]
  rw [if_neg hlen]
  congr 1
  rw [sum_map_sub, hmval]
  have hz : ((xs.filterMap id).length : ℚ) ≠ 0 := by exact_mod_cast hlen
  field_simp

/-- Claim C10: `score_drives` replaces each `drive_score` by `drive_score`
minus the mean `drive_score` of the drives sharing its `start_yard_line_bin`
(the `recenter_row` map); consequently, for every starting bucket containing
at least one finite `drive_score`, the re-centered drive scores of that
bucket have mean zero. -/
theorem c10_recentered_bucket_mean_zero (df : List ScoredDrive) (b : String)
    (h : ∃ r, r ∈ df ∧ r.start_yard_line_bin = some b ∧ r.drive_score ≠ none) :
    optMean (((recenter_drive_scores df).filter fun x =>
      decide (x.start_yard_line_bin = some b)).map fun x => x.drive_score) = some 0 := by
  obtain ⟨r0, hr0mem, hr0bin, hr0score⟩ := h
  have hr0filt : r0 ∈ df.filter (fun x => decide (x.start_yard_line_bin = some b)) :=
    List.mem_filter.mpr ⟨hr0mem, by simp [hr0bin]⟩
  have hlen : (((df.filter fun x => decide (x.start_yard_line_bin = some b)).map
      fun x => x.drive_score).filterMap id).length ≠ 0 := by
    obtain ⟨q, hq⟩ := Option.ne_none_iff_exists'.mp hr0score
    have h2 : some q ∈ ((df.filter fun x => decide (x.start_yard_line_bin = some b)).map
        fun x => x.drive_score) :=
      List.mem_map.mpr ⟨r0, hr0filt, by rw [hq]⟩
    have h3 : q ∈ (((df.filter fun x => decide (x.start_yard_line_bin = some b)).map
        fun x => x.drive_score).filterMap id) :=
      List.mem_filterMap.mpr ⟨some q, h2, rfl⟩
    intro hc
    exact List.ne_nil_of_mem h3 (List.length_eq_zero.mp hc)
  obtain ⟨m, hM⟩ : ∃ m, optMean ((df.filter fun x =>
      decide (x.start_yard_line_bin = some b)).map fun x => x.drive_score) = some m :=
    ⟨_, optMean_eq_some hlen⟩
  have hfilter : (recenter_drive_scores df).filter
        (fun x => decide (x.start_yard_line_bin = some b))
      = (df.filter fun x => decide (x.start_yard_line_bin = some b)).map
          (recenter_row df) := by
    unfold recenter_drive_scores
    rw [List.filter_map]
    rfl
  have hvals : ((df.filter fun x => decide (x.start_yard_line_bin = some b)).map
        (recenter_row df)).map (fun x => x.drive_score)
      = ((df.filter fun x => decide (x.start_yard_line_bin = some b)).map
          fun x => x.drive_score).map (Option.map fun v => v - m) := by
    rw [List.map_map, List.map_map]
    apply List.map_congr_left
    intro x hx
    have hxbin : x.start_yard_line_bin = some b := by
      have h4 := (List.mem_filter.mp hx).2
      simpa using h4
    show optSub x.drive_score (nfl_avg_score df x)
      = Option.map (fun v => v - m) x.drive_score
    unfold nfl_avg_score
    rw [hxbin]
    show optSub x.drive_score (optMean ((df.filter fun x =>
        decide (x.start_yard_line_bin = some b)).map fun x => x.drive_score))
      = Option.map (fun v => v - m) x.drive_score
    rw [hM]
    cases x.drive_score <;> rfl
  rw [hfilter, hvals]
  exact optMean_center hM

/-- Claim C10, witness: on the two-drive bucket with scores 1 and 3 (mean 2),
the re-centered bucket mean is zero. -/
theorem c10_recentered_bucket_mean_zero_witness :
    optMean (((recenter_drive_scores w10Table).filter fun x =>
      decide (x.start_yard_line_bin = some "0-10")).map fun x => x.drive_score)
      = some 0 :=
  c10_recentered_bucket_mean_zero w10Table "0-10"
    ⟨⟨"Punt", "p1".toList, some "0-10", some "30-40", some 60, some 0, 0, 0,
        0, 0, 0, 0, 0, none, some 1⟩,
      List.Mem.head _, rfl, by simp⟩

/-! ### Claim C3 — opponent-strength adjustment on balanced input -/

/-- One iterator round preserves the table length. -/
lemma length_adjustment_step (step_size : ℚ) (df : List AdjDrive) :
    (adjustment_step step_size df).length = df.length := by
  simp [adjustment_step]

/-- The iterator loop preserves the table length. -/
lemma length_iterate_adjustment (step_size : ℚ) :
    ∀ (n : Nat) (df : List AdjDrive),
      (iterate_adjustment step_size n df).length = df.length := by
  intro n
  induction n with
  | zero => intro df; rfl
  | succ k ih =>
      intro df
      show (iterate_adjustment step_size k (adjustment_step step_size df)).length = _
      rw [ih, length_adjustment_step]

/-- `opponent_strength_adjustment` preserves the table length. -/
lemma length_opponent_strength_adjustment (df : List AdjDrive) (n : Nat) (step_size : ℚ) :
    (opponent_strength_adjustment df n step_size).length = df.length := by
  show (iterate_adjustment step_size n (init_adjustment df)).length = _
  rw [length_iterate_adjustment]
  simp [init_adjustment]

/-- If every team-season mean drive score (by both groupings) is zero, the
initialised table is a fixed point of one iterator round. -/
lemma adjustment_step_init_fixed (df : List AdjDrive) (step_size : ℚ)
    (hdef : ∀ r ∈ df,
      ((df.filter fun x => decide (x.season = r.season)
          && decide (x.defensive_team = r.defensive_team)).map
        fun x => x.drive_score).sum /
      (((df.filter fun x => decide (x.season = r.season)
          && decide (x.defensive_team = r.defensive_team)).length : ℚ)) = 0)
    (hoff : ∀ r ∈ df,
      ((df.filter fun x => decide (x.season = r.season)
          && decide (x.offensive_team = r.offensive_team)).map
        fun x => x.drive_score).sum /
      (((df.filter fun x => decide (x.season = r.season)
          && decide (x.offensive_team = r.offensive_team)).length : ℚ)) = 0) :
    adjustment_step step_size (init_adjustment df) = init_adjustment df := by
  unfold adjustment_step
  have hfix : ∀ r0 ∈ init_adjustment df, ({ r0 with
      adj_offensive_score :=
        r0.adj_offensive_score - step_size * offensive_adj (init_adjustment df) r0,
      adj_defensive_score :=
        r0.adj_defensive_score - step_size * defensive_adj (init_adjustment df) r0 } :
        AdjDrive) = r0 := by
    intro r0 hr0
    obtain ⟨r, hr, rfl⟩ := List.mem_map.mp hr0
    have ho : offensive_adj (init_adjustment df)
        { r with adj_offensive_score := r.drive_score,
                 adj_defensive_score := r.drive_score } = 0 := by
      simp only [offensive_adj]
      unfold init_adjustment
      rw [List.filter_map, List.map_map, List.length_map]
      exact hdef r hr
    have hd : defensive_adj (init_adjustment df)
        { r with adj_offensive_score := r.drive_score,
                 adj_defensive_score := r.drive_score } = 0 := by
      simp only [defensive_adj]
      unfold init_adjustment
      rw [List.filter_map, List.map_map, List.length_map]
      exact hoff r hr
    rw [ho, hd]
    simp
  calc (init_adjustment df).map _ = (init_adjustment df).map id :=
        List.map_congr_left hfix
    _ = init_adjustment df := List.map_id _

/-- A fixed point of one round is a fixed point of any number of rounds. -/
lemma iterate_adjustment_fixed (step_size : ℚ) (l : List AdjDrive)
    (hfix : adjustment_step step_size l = l) :
    ∀ n, iterate_adjustment step_size n l = l := by
  intro n
  induction n with
  | zero => rfl
  | succ k ih =>
      show iterate_adjustment step_size k (adjustment_step step_size l) = l
      rw [hfix]
      exact ih

/-- Claim C3 (amended): for every input table in which, per season, every
team-season mean drive score (grouped by defensive team and by offensive
team) is zero — as the pipeline's re-centering produces on a synthetic
symmetric league — the opponent-strength iterator leaves
`adj_offensive_score` (and `adj_defensive_score`) equal to `drive_score` for
every drive, after any number of iterations `n ≥ 0` and for any step size. -/
theorem c3_balanced_zero_adjustment (df : List AdjDrive) (n : Nat) (step_size : ℚ)
    (hdef : ∀ r ∈ df,
      ((df.filter fun x => decide (x.season = r.season)
          && decide (x.defensive_team = r.defensive_team)).map
        fun x => x.drive_score).sum /
      (((df.filter fun x => decide (x.season = r.season)
          && decide (x.defensive_team = r.defensive_team)).length : ℚ)) = 0)
    (hoff : ∀ r ∈ df,
      ((df.filter fun x => decide (x.season = r.season)
          && decide (x.offensive_team = r.offensive_team)).map
        fun x => x.drive_score).sum /
      (((df.filter fun x => decide (x.season = r.season)
          && decide (x.offensive_team = r.offensive_team)).length : ℚ)) = 0) :
    ∀ r ∈ opponent_strength_adjustment df n step_size,
      r.adj_offensive_score = r.drive_score ∧ r.adj_defensive_score = r.drive_score := by
  intro r hr
  unfold opponent_strength_adjustment at hr
  rw [iterate_adjustment_fixed step_size _
    (adjustment_step_init_fixed df step_size hdef hoff) n] at hr
  unfold init_adjustment at hr
  obtain ⟨r', hr', rfl⟩ := List.mem_map.mp hr
  exact ⟨rfl, rfl⟩

/-- Claim C3, counterexample: on `cexAdjTable` — drive scores summing to zero
(consistent with re-centering: all four drives share one start bucket whose
mean is 0), with every team-season mean equal to 1 in season 1 and to −1 in
season 2, hence identical within each season — a single iteration with the
source's `step_size = 0.2` shrinks every score: row 0 has `drive_score = 1`
but `adj_offensive_score = 4/5 ≠ 1`.  Identical (nonzero) per-season means do
not make the adjustment vanish; only zero means do. -/
theorem c3_balanced_zero_adjustment_cex :
    ((init_adjustment cexAdjTable).map fun r =>
        offensive_adj (init_adjustment cexAdjTable) r) = [1, 1, -1, -1]
  ∧ ((init_adjustment cexAdjTable).map fun r =>
        defensive_adj (init_adjustment cexAdjTable) r) = [1, 1, -1, -1]
  ∧ (cexAdjTable.map fun r => r.drive_score).sum = 0
  ∧ ((opponent_strength_adjustment cexAdjTable 1 (1/5)).map fun r =>
        (r.drive_score, r.adj_offensive_score))
      = [(1, 4/5), (1, 4/5), (-1, -4/5), (-1, -4/5)]
  ∧ ((4 : ℚ)/5) ≠ 1 := by
  refine ⟨?_, ?_, ?_, ?_, by norm_num⟩
  · simp [init_adjustment, cexAdjTable, offensive_adj, List.filter_cons]
  · simp [init_adjustment, cexAdjTable, defensive_adj, List.filter_cons]
  · simp [cexAdjTable]
  · simp [opponent_strength_adjustment, iterate_adjustment, adjustment_step,
      init_adjustment, offensive_adj, defensive_adj, cexAdjTable, List.filter_cons]
    norm_num

/-- Claim C3, witness: on the zero-mean table `wAdjTable`, after the source's
default 5 iterations with step 0.2, row 0's adjusted offensive score still
equals its drive score. -/
theorem c3_balanced_zero_adjustment_witness :
    ((opponent_strength_adjustment wAdjTable 5 (1/5)).get
        ⟨0, by rw [length_opponent_strength_adjustment]; decide⟩).adj_offensive_score
      = ((opponent_strength_adjustment wAdjTable 5 (1/5)).get
        ⟨0, by rw [length_opponent_strength_adjustment]; decide⟩).drive_score :=
  (c3_balanced_zero_adjustment wAdjTable 5 (1/5)
    (by
      intro r hr
      simp only [wAdjTable, List.mem_cons, List.not_mem_nil, or_false] at hr
      rcases hr with rfl | rfl | rfl <;>
        simp [wAdjTable, List.filter_cons])
    (by
      intro r hr
      simp only [wAdjTable, List.mem_cons, List.not_mem_nil, or_false] at hr
      rcases hr with rfl | rfl | rfl <;>
        simp [wAdjTable, List.filter_cons])
    _ (List.get_mem _ _ _)).1
